import Mathlib

/-
Shallow embedding of the react-cognito authentication core (the auth module,
given as src/unnamed/part_000) and of the legacy dispatch-based authenticate
function in src/src/Login.jsx.

Modelling conventions:
  * Every remote-service interaction (directory authentication, session fetch,
    credential refresh, attribute fetch, attribute update, verification-code
    request, sign-up) is represented by an explicit response value passed as an
    argument: the functions are pure in the responses the remote services give.
  * A JavaScript promise settlement is modelled by `PResult`:
      - `resolved a`   : the promise resolves with `a`;
      - `rejected m`   : the promise rejects with message `m`;
      - `unsettled m`  : the promise NEVER settles, and an internal rejection
        carrying message `m` escaped as an unhandled rejection.  This case
        arises from the source pattern `new Promise(resolve => p.then(f))`
        (no rejection handler on `p`): when `p` rejects, the derived promise
        rejects unhandled and the outer promise stays pending forever.
    `resolve(q)` on a promise `q` adopts the state of `q` (resolved stays
    resolved, rejected stays rejected, pending stays pending), while
    `q.then(resolve)` with no second argument maps a rejection of `q` to
    `unsettled` of the outer promise.
  * A promise executor calls `resolve` at most once on every control path of
    the source, so producing the settlement as a single value is faithful;
    multiplicity of outcomes is one by construction wherever a `resolved`
    value is produced.
  * JavaScript field values that the code compares with strict equality
    (`=== false`) are modelled by `JSVal`, so that absent (`undefined`),
    `null`, strings and numbers are all distinct from the boolean `false`.
  * A decoded attribute object is an association list with unique keys built
    by `objAssign`, which mirrors JS object assignment (overwrite in place if
    the key exists, append otherwise); property access is `lookupAttr`.
-/

set_option autoImplicit false

namespace ReactCognito

/-- JavaScript values, as far as the code distinguishes them by strict
equality: the code only ever compares against the boolean literal false. -/
inductive JSVal where
  | undefined
  | null
  | bool (b : Bool)
  | str (s : String)
  | num (n : Int)
  deriving DecidableEq, Repr

/-- Settlement of a JS promise: resolved, rejected, or never settles because
an internal rejection (with the recorded message) escaped unhandled. -/
inductive PResult (α : Type) where
  | resolved (a : α)
  | rejected (message : String)
  | unsettled (escaped : String)
  deriving DecidableEq, Repr

/-- True when the promise settles (resolves or rejects). -/
def PResult.settles {α : Type} : PResult α → Bool
  | .resolved _ => true
  | .rejected _ => false
  | .unsettled _ => false

/-- The user-pool handle; opaque to the core, identified by its id. -/
abbrev UserPool := String

/-- The CognitoUser handle: constructed from a username and a pool
(`new CognitoUser(\x7bUsername, Pool\x7d)`); getUsername returns Username. -/
structure CognitoUser where
  Username : String
  Pool : UserPool
  deriving DecidableEq, Repr

/-- The config object consumed by the module: region, userPool and
identityPool are read by buildLogins, mandatoryEmailVerification by
emailVerificationIsMandatory.  The latter is a JSVal because the code
compares it with strict equality against the boolean false, so an absent
field reads as undefined. -/
structure Config where
  region : String
  userPool : String
  identityPool : String
  mandatoryEmailVerification : JSVal
  deriving DecidableEq, Repr

/-- An attribute object: association list from attribute name to string
value, in insertion order. -/
abbrev AttrMap := List (String × String)

/-- JS object assignment `obj[k] = v`: overwrite in place when the key is
present, append otherwise. -/
def objAssign (m : AttrMap) (k v : String) : AttrMap :=
  if m.any (fun p => p.1 == k) then
    m.map (fun p => if p.1 == k then (k, v) else p)
  else
    m ++ [(k, v)]

/-- JS property access `obj.k` on a decoded attribute object: the value at
the key, or none when the property is absent (undefined). -/
def lookupAttr (m : AttrMap) (k : String) : Option String :=
  (m.find? (fun p => p.1 == k)).map (fun p => p.2)

/-- A wire attribute as the directory exchanges it: the code writes
`\x7bName: key, Value: attributes[key]\x7d` and reads back via getName() and
getValue(), which return these two fields. -/
structure WireAttr where
  Name : String
  Value : String
  deriving DecidableEq, Repr

/-- mkAttrList: `Object.keys(attributes).map(key => (\x7bName: key,
Value: attributes[key]\x7d))`; Object.keys enumerates the entries of the
object in insertion order, with unique keys. -/
def mkAttrList (attributes : AttrMap) : List WireAttr :=
  attributes.map (fun p => { Name := p.1, Value := p.2 })

/-- The decoding loop inside getUserAttributes:
`for i: attributes[result[i].getName()] = result[i].getValue()` starting
from the empty object. -/
def decodeAttrList (result : List WireAttr) : AttrMap :=
  result.foldl (fun attributes a => objAssign attributes a.Name a.Value) []

/-- The actions (Outcome variants) the module resolves its promises with,
with the constructor argument order of the source `Action` creators. -/
inductive Action where
  | login (user : CognitoUser) (attributes : AttrMap)
  | loginFailure (user : CognitoUser) (message : String)
  | mfaRequired (user : CognitoUser)
  | newPasswordRequired (user : CognitoUser)
  | confirmationRequired (user : CognitoUser)
  | emailVerificationRequired (user : CognitoUser) (attributes : AttrMap)
  | emailVerificationFailed (user : CognitoUser) (error : String) (attributes : AttrMap)
  | updateAttributes (attributes : AttrMap)
  deriving DecidableEq, Repr

/-- Directory response to getAttributeVerificationCode: one of the three
callbacks onSuccess, inputVerificationCode, onFailure(error). -/
inductive VerifCodeResp where
  | onSuccess
  | inputVerificationCode
  | onFailure (message : String)
  deriving DecidableEq, Repr

/-- Directory response to getUserAttributes: an error or the attribute
list. -/
inductive AttrsResp where
  | err (message : String)
  | res (attrs : List WireAttr)
  deriving DecidableEq, Repr

/-- Directory response to getSession: an error, or a session whose
getIdToken().getJwtToken() is the recorded token. -/
inductive GetSessionResp where
  | err (message : String)
  | ok (jwtToken : String)
  deriving DecidableEq, Repr

/-- Credential exchange response to creds.refresh: error or success. -/
inductive RefreshResp where
  | err (message : String)
  | ok
  deriving DecidableEq, Repr

/-- Directory response to authenticateUser: one of the four callbacks; the
onFailure error carries a code and a message. -/
inductive AuthResp where
  | onSuccess
  | onFailure (code : String) (message : String)
  | mfaRequired
  | newPasswordRequired
  deriving DecidableEq, Repr

/-- Pool response to signUp: an error, or a result with a userConfirmed
field (a JSVal, compared strictly against false) and a user handle. -/
inductive SignUpResp where
  | err (message : String)
  | ok (userConfirmed : JSVal) (user : CognitoUser)
  deriving DecidableEq, Repr

/-- Directory response to updateAttributes: the single callback argument,
an error or nothing. -/
inductive UpdateResp where
  | err (message : String)
  | ok
  deriving DecidableEq, Repr

/-- sendAttributeVerificationCode: resolves false on onSuccess, true on
inputVerificationCode, rejects with the error message on onFailure. -/
def sendAttributeVerificationCode (resp : VerifCodeResp) : Except String Bool :=
  match resp with
  | .onSuccess => .ok false
  | .inputVerificationCode => .ok true
  | .onFailure message => .error message

/-- getUserAttributes: rejects with the error message, or resolves with the
attribute object decoded from the list. -/
def getUserAttributes (resp : AttrsResp) : Except String AttrMap :=
  match resp with
  | .err message => .error message
  | .res result => .ok (decodeAttrList result)

/-- emailVerificationFlow: never rejects; on the required branch resolves
emailVerificationRequired, on the not-required branch resolves login (the
dead-end short circuit), and maps a rejection of the code request to
emailVerificationFailed. -/
def emailVerificationFlow (user : CognitoUser) (attributes : AttrMap)
    (verifResp : VerifCodeResp) : Action :=
  match sendAttributeVerificationCode verifResp with
  | .ok true => .emailVerificationRequired user attributes
  | .ok false => .login user attributes
  | .error error => .emailVerificationFailed user error attributes

/-- emailVerificationIsMandatory: `!(config && config.mandatoryEmailVerification === false)`.
An undefined config is falsy; the field comparison is strict equality
against the boolean false. -/
def emailVerificationIsMandatory (config : Option Config) : Bool :=
  match config with
  | none => true
  | some c => !(c.mandatoryEmailVerification == JSVal.bool false)

/-- loginOrVerifyEmail: `new Promise(resolve => getUserAttributes(user).then(attributes => ...))`.
The then-chain has no rejection handler, so a getUserAttributes failure
leaves the outer promise forever pending with the error message escaping
as an unhandled rejection (`unsettled`).  On success, the gate either
resolves with the emailVerificationFlow result or resolves login. -/
def loginOrVerifyEmail (user : CognitoUser) (config : Option Config)
    (attrsResp : AttrsResp) (verifResp : VerifCodeResp) : PResult Action :=
  match getUserAttributes attrsResp with
  | .error message => .unsettled message
  | .ok attributes =>
    if emailVerificationIsMandatory config ∧ lookupAttr attributes "email_verified" ≠ some "true" then
      .resolved (emailVerificationFlow user attributes verifResp)
    else
      .resolved (.login user attributes)

/-- buildLogins: the credentials parameter object for the identity pool,
keyed by the user-pool login URL. -/
structure IdentityPoolCreds where
  IdentityPoolId : String
  Logins : List (String × String)
  LoginId : String
  deriving DecidableEq, Repr

/-- buildLogins: builds the login assertion
`cognito-idp.region.amazonaws.com/userPool -> jwtToken` plus the LoginId
hint. -/
def buildLogins (username jwtToken : String) (config : Config) : IdentityPoolCreds :=
  let loginDomain := "cognito-idp." ++ config.region ++ ".amazonaws.com"
  let loginUrl := loginDomain ++ "/" ++ config.userPool
  { IdentityPoolId := config.identityPool
    Logins := [(loginUrl, jwtToken)]
    LoginId := username }

/-- refreshIdentityCredentials: constructs the credentials from buildLogins
and asks the exchange service to refresh; rejects with the error message on
failure, resolves with no payload on success. -/
def refreshIdentityCredentials (username jwtToken : String) (config : Config)
    (refreshResp : RefreshResp) : Except String Unit :=
  let _creds := buildLogins username jwtToken config
  match refreshResp with
  | .err message => .error message
  | .ok => .ok ()

/-- performLogin: rejects with "user is null" when the user is null;
otherwise a getSession error resolves loginFailure, a refresh failure
resolves loginFailure with the exchange message, and on success the result
of loginOrVerifyEmail is forwarded through `.then(resolve)` (so a rejection
of the gate would escape unhandled and leave the promise pending). -/
def performLogin (user : Option CognitoUser) (config : Config)
    (sessionResp : GetSessionResp) (refreshResp : RefreshResp)
    (attrsResp : AttrsResp) (verifResp : VerifCodeResp) : PResult Action :=
  match user with
  | none => .rejected "user is null"
  | some u =>
    match sessionResp with
    | .err message => .resolved (.loginFailure u message)
    | .ok jwtToken =>
      match refreshIdentityCredentials u.Username jwtToken config refreshResp with
      | .error message => .resolved (.loginFailure u message)
      | .ok _ =>
        match loginOrVerifyEmail u (some config) attrsResp verifResp with
        | .resolved a => .resolved a
        | .rejected m => .unsettled m
        | .unsettled m => .unsettled m

/-- authenticate: constructs the user from username and pool and submits the
credentials; onSuccess forwards performLogin through `.then(resolve)`,
onFailure maps the UserNotConfirmedException code to confirmationRequired
and every other failure to loginFailure with the message, and the
mfaRequired and newPasswordRequired callbacks resolve their actions. -/
def authenticate (username _password : String) (userPool : UserPool) (config : Config)
    (authResp : AuthResp) (sessionResp : GetSessionResp) (refreshResp : RefreshResp)
    (attrsResp : AttrsResp) (verifResp : VerifCodeResp) : PResult Action :=
  let user : CognitoUser := { Username := username, Pool := userPool }
  match authResp with
  | .onSuccess =>
    match performLogin (some user) config sessionResp refreshResp attrsResp verifResp with
    | .resolved a => .resolved a
    | .rejected m => .unsettled m
    | .unsettled m => .unsettled m
  | .onFailure code message =>
    if code = "UserNotConfirmedException" then
      .resolved (.confirmationRequired user)
    else
      .resolved (.loginFailure user message)
  | .mfaRequired => .resolved (.mfaRequired user)
  | .newPasswordRequired => .resolved (.newPasswordRequired user)

/-- updateAttributes: encodes the attributes with mkAttrList and submits;
a directory error rejects with its message; on success the gate is re-run
when verification is mandatory (`resolve(loginOrVerifyEmail(...))` adopts
that promise state), otherwise the updateAttributes action resolves
directly. -/
def updateAttributes (user : CognitoUser) (attributes : AttrMap) (config : Option Config)
    (updateResp : UpdateResp) (attrsResp : AttrsResp) (verifResp : VerifCodeResp) :
    PResult Action :=
  let _attributeList := mkAttrList attributes
  match updateResp with
  | .err message => .rejected message
  | .ok =>
    if emailVerificationIsMandatory config then
      loginOrVerifyEmail user config attrsResp verifResp
    else
      .resolved (.updateAttributes attributes)

/-- registerUser: signs up with the encoded attributes; an error rejects
with its message; a result with userConfirmed strictly equal to false
resolves confirmationRequired with the new user handle; otherwise
`resolve(authenticate(...))` adopts the state of the authentication flow
run with the same username, password, pool and config. -/
def registerUser (userPool : UserPool) (config : Config) (username password : String)
    (attributes : AttrMap) (signUpResp : SignUpResp)
    (authResp : AuthResp) (sessionResp : GetSessionResp) (refreshResp : RefreshResp)
    (attrsResp : AttrsResp) (verifResp : VerifCodeResp) : PResult Action :=
  let _attributeList := mkAttrList attributes
  match signUpResp with
  | .err message => .rejected message
  | .ok userConfirmed newUser =>
    if userConfirmed = JSVal.bool false then
      .resolved (.confirmationRequired newUser)
    else
      authenticate username password userPool config authResp sessionResp refreshResp
        attrsResp verifResp

/-- Login.jsx dispatch values: either a plain action handed to dispatch, or
the delegation to the external postLoginDispatch utility on the success
path. -/
inductive LoginDispatch where
  | action (a : Action)
  | postLogin (user : CognitoUser)
  deriving DecidableEq, Repr

/-- Directory response to authenticateUser as Login.jsx consumes it: its
onSuccess callback receives the session result directly and reads
getIdToken().getJwtToken() from it. -/
inductive JsxAuthResp where
  | onSuccess (jwtToken : String)
  | onFailure (code : String) (message : String)
  | mfaRequired
  | newPasswordRequired
  deriving DecidableEq, Repr

/-- The authenticate function local to src/src/Login.jsx: dispatch-based.
On success it builds the identity credentials and refreshes; a refresh
error dispatches loginFailure, success delegates to postLoginDispatch.
Every onFailure error dispatches loginFailure with the message: the error
code is not inspected.  mfaRequired and newPasswordRequired dispatch their
actions. -/
def loginJsxAuthenticate (username _password : String) (userPool : UserPool)
    (config : Config) (authResp : JsxAuthResp) (refreshResp : RefreshResp) :
    LoginDispatch :=
  let user : CognitoUser := { Username := username, Pool := userPool }
  match authResp with
  | .onSuccess jwtToken =>
    let _identityCredentials := buildLogins username jwtToken config
    match refreshResp with
    | .err message => .action (.loginFailure user message)
    | .ok => .postLogin user
  | .onFailure _code message => .action (.loginFailure user message)
  | .mfaRequired => .action (.mfaRequired user)
  | .newPasswordRequired => .action (.newPasswordRequired user)

end ReactCognito

namespace ReactCognito

/-- A config with no mandatoryEmailVerification setting (the field reads as
undefined), used as a concrete default-policy config. -/
def cfgDefault : Config :=
  { region := "eu-west-1"
    userPool := "pool-id"
    identityPool := "idp-id"
    mandatoryEmailVerification := JSVal.undefined }

/-- A config that explicitly disables mandatory email verification. -/
def cfgNoVerif : Config :=
  { region := "eu-west-1"
    userPool := "pool-id"
    identityPool := "idp-id"
    mandatoryEmailVerification := JSVal.bool false }

/-- On a successful attribute fetch the gate always resolves with some
action: both branches of the policy test call resolve. -/
theorem gate_res_resolves (user : CognitoUser) (config : Option Config)
    (l : List WireAttr) (verifResp : VerifCodeResp) :
    ∃ a, loginOrVerifyEmail user config (.res l) verifResp = .resolved a := by
  simp only [loginOrVerifyEmail, getUserAttributes]
  split <;> exact ⟨_, rfl⟩

/-- C7: emailVerificationIsMandatory is true on an undefined config, and on
any config object it is false exactly when the mandatoryEmailVerification
field is strictly the boolean false, so an unset field (undefined) or any
other value leaves verification mandatory (fail-closed default). -/
theorem C7_emailVerificationIsMandatory_failClosed :
    emailVerificationIsMandatory none = true ∧
    (∀ c : Config,
      emailVerificationIsMandatory (some c) = false ↔
        c.mandatoryEmailVerification = JSVal.bool false) := by
  refine ⟨rfl, fun c => ?_⟩
  simp [emailVerificationIsMandatory]

/-- C4: when directory authentication succeeds, the session fetch succeeds
and the credential-exchange refresh fails, authenticate resolves
loginFailure carrying the authenticated user and the exchange error message
verbatim; in particular no login or emailVerificationRequired action is
produced for that call. -/
theorem C4_federation_failure_loginFailure
    (username password : String) (userPool : UserPool) (config : Config)
    (jwtToken message : String) (attrsResp : AttrsResp) (verifResp : VerifCodeResp) :
    authenticate username password userPool config .onSuccess (.ok jwtToken)
      (.err message) attrsResp verifResp =
      .resolved (.loginFailure { Username := username, Pool := userPool } message) := rfl

/-- C3 (amended): when the attribute fetch inside the gate fails, the
promise returned by loginOrVerifyEmail never settles: the directory error
message escapes as an unhandled rejection of the internal then-chain and is
mapped to no action. -/
theorem C3_attr_fetch_failure_never_settles
    (user : CognitoUser) (config : Option Config) (message : String)
    (verifResp : VerifCodeResp) :
    loginOrVerifyEmail user config (.err message) verifResp =
      .unsettled message := rfl

/-- C3 counterexample: at a concrete failing attribute fetch the promise
returned by loginOrVerifyEmail is not rejected with the directory message,
contrary to the claim; it never settles. -/
theorem C3_counterexample :
    loginOrVerifyEmail { Username := "alice", Pool := "pool-id" } (some cfgDefault)
        (.err "Network error") .inputVerificationCode ≠
      PResult.rejected "Network error" ∧
    loginOrVerifyEmail { Username := "alice", Pool := "pool-id" } (some cfgDefault)
        (.err "Network error") .inputVerificationCode =
      PResult.unsettled "Network error" :=
  ⟨by decide, rfl⟩

/-- C1 counterexample: a concrete invocation of authenticate in which the
directory authentication, session fetch and credential refresh succeed but
the attribute fetch fails: the returned promise never settles, so this
invocation produces zero outcomes, contrary to the claim. -/
theorem C1_counterexample :
    (authenticate "alice" "pw" "pool-id" cfgDefault .onSuccess (.ok "jwt") .ok
        (.err "Network error") .inputVerificationCode).settles = false ∧
    authenticate "alice" "pw" "pool-id" cfgDefault .onSuccess (.ok "jwt") .ok
        (.err "Network error") .inputVerificationCode =
      PResult.unsettled "Network error" :=
  ⟨rfl, rfl⟩

/-- C1 (amended): for every combination of remote-service responses,
authenticate never rejects, and it resolves with exactly one action except
in the single case where the attribute fetch inside the gate fails, in
which case the promise never settles and the fetch error escapes as an
unhandled rejection. -/
theorem C1_amended_settlement
    (username password : String) (userPool : UserPool) (config : Config)
    (authResp : AuthResp) (sessionResp : GetSessionResp) (refreshResp : RefreshResp)
    (attrsResp : AttrsResp) (verifResp : VerifCodeResp) :
    (∃ a, authenticate username password userPool config authResp sessionResp
        refreshResp attrsResp verifResp = PResult.resolved a) ∨
    (∃ m, attrsResp = AttrsResp.err m ∧
      authenticate username password userPool config authResp sessionResp
        refreshResp attrsResp verifResp = PResult.unsettled m) := by
  cases authResp with
  | onSuccess =>
    cases sessionResp with
    | err m => exact Or.inl ⟨_, rfl⟩
    | ok jwt =>
      cases refreshResp with
      | err m => exact Or.inl ⟨_, rfl⟩
      | ok =>
        cases attrsResp with
        | err m => exact Or.inr ⟨m, rfl, rfl⟩
        | res l =>
          obtain ⟨a, ha⟩ :=
            gate_res_resolves { Username := username, Pool := userPool }
              (some config) l verifResp
          refine Or.inl ⟨a, ?_⟩
          simp [authenticate, performLogin, refreshIdentityCredentials, ha]
  | onFailure code message =>
    by_cases h : code = "UserNotConfirmedException"
    · refine Or.inl ⟨.confirmationRequired { Username := username, Pool := userPool }, ?_⟩
      simp [authenticate, h]
    · refine Or.inl ⟨.loginFailure { Username := username, Pool := userPool } message, ?_⟩
      simp [authenticate, h]
  | mfaRequired => exact Or.inl ⟨_, rfl⟩
  | newPasswordRequired => exact Or.inl ⟨_, rfl⟩

end ReactCognito

namespace ReactCognito

/-- C2 counterexample: a successful authentication under the default
(mandatory) config with email_verified equal to "false", where the
verification-code request reports no further input is needed (onSuccess):
the flow resolves the login action, contradicting the claim that the
outcome is never LoggedIn in that branch. -/
theorem C2_counterexample :
    authenticate "alice" "pw" "pool-id" cfgDefault .onSuccess (.ok "jwt") .ok
        (.res [{ Name := "email", Value := "a@b.com" },
               { Name := "email_verified", Value := "false" }]) .onSuccess =
      PResult.resolved (.login { Username := "alice", Pool := "pool-id" }
        [("email", "a@b.com"), ("email_verified", "false")]) := by
  decide

/-- C2 (amended): under a mandatory-verification config, when a successful
authentication fetches attributes whose email_verified is not the string
"true", the outcome is emailVerificationRequired when the code request asks
for input, emailVerificationFailed with the delivery error when the request
fails, and (the dead-end short circuit) login when the directory reports no
further input is needed; no other outcome is possible on this path. -/
theorem C2_amended_mandatory_not_verified
    (username password : String) (userPool : UserPool) (config : Config)
    (jwtToken : String) (l : List WireAttr) (verifResp : VerifCodeResp)
    (hm : emailVerificationIsMandatory (some config) = true)
    (hv : lookupAttr (decodeAttrList l) "email_verified" ≠ some "true") :
    (verifResp = .onSuccess →
      authenticate username password userPool config .onSuccess (.ok jwtToken) .ok
          (.res l) verifResp =
        .resolved (.login { Username := username, Pool := userPool }
          (decodeAttrList l))) ∧
    (verifResp = .inputVerificationCode →
      authenticate username password userPool config .onSuccess (.ok jwtToken) .ok
          (.res l) verifResp =
        .resolved (.emailVerificationRequired { Username := username, Pool := userPool }
          (decodeAttrList l))) ∧
    (∀ m, verifResp = .onFailure m →
      authenticate username password userPool config .onSuccess (.ok jwtToken) .ok
          (.res l) verifResp =
        .resolved (.emailVerificationFailed { Username := username, Pool := userPool } m
          (decodeAttrList l))) := by
  refine ⟨fun h => ?_, fun h => ?_, fun m h => ?_⟩ <;>
    subst h <;>
    simp [authenticate, performLogin, refreshIdentityCredentials,
      loginOrVerifyEmail, getUserAttributes, emailVerificationFlow,
      sendAttributeVerificationCode, hm, hv]

/-- C2 witness: the amended theorem applied at a concrete mandatory config
and unverified attribute list, with the code request asking for input. -/
theorem C2_amended_witness :
    authenticate "alice" "pw" "pool-id" cfgDefault .onSuccess (.ok "jwt") .ok
        (.res [{ Name := "email_verified", Value := "false" }])
        .inputVerificationCode =
      PResult.resolved (.emailVerificationRequired
        { Username := "alice", Pool := "pool-id" } [("email_verified", "false")]) :=
  (C2_amended_mandatory_not_verified "alice" "pw" "pool-id" cfgDefault "jwt"
    [{ Name := "email_verified", Value := "false" }] .inputVerificationCode
    (by decide) (by decide)).2.1 rfl

/-- C5 counterexample: the authenticate function local to Login.jsx does
not inspect the error code: on a failure with code
UserNotConfirmedException it dispatches loginFailure with the message, not
confirmationRequired, contradicting the claim for that function. -/
theorem C5_counterexample :
    loginJsxAuthenticate "alice" "pw" "pool-id" cfgDefault
        (.onFailure "UserNotConfirmedException" "User is not confirmed.") .ok =
      .action (.loginFailure { Username := "alice", Pool := "pool-id" }
        "User is not confirmed.") ∧
    loginJsxAuthenticate "alice" "pw" "pool-id" cfgDefault
        (.onFailure "UserNotConfirmedException" "User is not confirmed.") .ok ≠
      .action (.confirmationRequired { Username := "alice", Pool := "pool-id" }) :=
  ⟨rfl, by decide⟩

/-- C5 (amended): the promise-based authenticate of the auth module maps a
directory failure with code UserNotConfirmedException to
confirmationRequired and every other failure to loginFailure with the
directory message; the dispatch-based authenticate in Login.jsx instead
dispatches loginFailure with the message for every failure code, including
UserNotConfirmedException. -/
theorem C5_amended_unconfirmed_branch
    (username password : String) (userPool : UserPool) (config : Config)
    (code message : String) (sessionResp : GetSessionResp) (refreshResp : RefreshResp)
    (attrsResp : AttrsResp) (verifResp : VerifCodeResp) (jsxRefreshResp : RefreshResp) :
    (authenticate username password userPool config (.onFailure code message)
        sessionResp refreshResp attrsResp verifResp =
      if code = "UserNotConfirmedException" then
        .resolved (.confirmationRequired { Username := username, Pool := userPool })
      else
        .resolved (.loginFailure { Username := username, Pool := userPool } message)) ∧
    loginJsxAuthenticate username password userPool config (.onFailure code message)
        jsxRefreshResp =
      .action (.loginFailure { Username := username, Pool := userPool } message) :=
  ⟨rfl, rfl⟩

end ReactCognito

namespace ReactCognito

/-- C6: registerUser rejects with the directory message on a sign-up error;
on success with userConfirmed strictly false it resolves
confirmationRequired with the new user handle regardless of any
authentication responses (so authentication is not invoked); otherwise it
adopts the result of authenticate run with the same username, password,
pool and config. -/
theorem C6_registerUser_branches
    (userPool : UserPool) (config : Config) (username password : String)
    (attributes : AttrMap) (message : String) (userConfirmed : JSVal)
    (newUser : CognitoUser) (authResp : AuthResp) (sessionResp : GetSessionResp)
    (refreshResp : RefreshResp) (attrsResp : AttrsResp) (verifResp : VerifCodeResp) :
    (registerUser userPool config username password attributes (.err message)
        authResp sessionResp refreshResp attrsResp verifResp =
      PResult.rejected message) ∧
    (registerUser userPool config username password attributes
        (.ok (JSVal.bool false) newUser)
        authResp sessionResp refreshResp attrsResp verifResp =
      PResult.resolved (.confirmationRequired newUser)) ∧
    (userConfirmed ≠ JSVal.bool false →
      registerUser userPool config username password attributes
          (.ok userConfirmed newUser)
          authResp sessionResp refreshResp attrsResp verifResp =
        authenticate username password userPool config authResp sessionResp
          refreshResp attrsResp verifResp) := by
  refine ⟨rfl, rfl, fun h => ?_⟩
  simp [registerUser, h]

/-- C6 witness: the theorem applied at a concrete sign-up result whose
userConfirmed field is undefined, with the subsequent authentication
reporting that MFA is required. -/
theorem C6_registerUser_branches_witness :
    registerUser "pool-id" cfgDefault "alice" "pw" [("email", "a@b.com")]
        (.ok JSVal.undefined { Username := "alice", Pool := "pool-id" })
        .mfaRequired (.ok "jwt") .ok (.res []) .onSuccess =
      authenticate "alice" "pw" "pool-id" cfgDefault
        .mfaRequired (.ok "jwt") .ok (.res []) .onSuccess :=
  (C6_registerUser_branches "pool-id" cfgDefault "alice" "pw"
    [("email", "a@b.com")] "m" JSVal.undefined
    { Username := "alice", Pool := "pool-id" }
    .mfaRequired (.ok "jwt") .ok (.res []) .onSuccess).2.2 (by decide)

/-- C10: registerUser compares the userConfirmed field of the sign-up
result strictly against the boolean false, so for every other value
(undefined, null, true, a string, a number) a successful sign-up proceeds
directly to authenticate with the submitted credentials. -/
theorem C10_strict_userConfirmed_check
    (userPool : UserPool) (config : Config) (username password : String)
    (attributes : AttrMap) (userConfirmed : JSVal) (newUser : CognitoUser)
    (authResp : AuthResp) (sessionResp : GetSessionResp) (refreshResp : RefreshResp)
    (attrsResp : AttrsResp) (verifResp : VerifCodeResp)
    (h : userConfirmed ≠ JSVal.bool false) :
    registerUser userPool config username password attributes
        (.ok userConfirmed newUser)
        authResp sessionResp refreshResp attrsResp verifResp =
      authenticate username password userPool config authResp sessionResp
        refreshResp attrsResp verifResp := by
  simp [registerUser, h]

/-- C10 witness: the theorem applied at a sign-up result whose
userConfirmed field is the string "false" (truthy in JS, and in any case
not the boolean false), with authentication failing on bad credentials. -/
theorem C10_strict_userConfirmed_check_witness :
    registerUser "pool-2" cfgDefault "bob" "pw2" []
        (.ok (JSVal.str "false") { Username := "bob", Pool := "pool-2" })
        (.onFailure "NotAuthorizedException" "Incorrect username or password.")
        (.ok "jwt") .ok (.res []) .onSuccess =
      authenticate "bob" "pw2" "pool-2" cfgDefault
        (.onFailure "NotAuthorizedException" "Incorrect username or password.")
        (.ok "jwt") .ok (.res []) .onSuccess :=
  C10_strict_userConfirmed_check "pool-2" cfgDefault "bob" "pw2" []
    (JSVal.str "false") { Username := "bob", Pool := "pool-2" }
    (.onFailure "NotAuthorizedException" "Incorrect username or password.")
    (.ok "jwt") .ok (.res []) .onSuccess (by decide)

/-- C8: updateAttributes rejects with the directory message when the
attribute update fails; on success it re-runs the gate exactly when
verification is mandatory, and otherwise resolves the updateAttributes
action with the submitted map; in the non-mandatory branch the result is
the same whatever the attribute-fetch and code-request responses are, so
no attribute re-fetch takes place. -/
theorem C8_updateAttributes_branches
    (user : CognitoUser) (attributes : AttrMap) (config : Option Config)
    (message : String) (attrsResp : AttrsResp) (verifResp : VerifCodeResp) :
    (updateAttributes user attributes config (.err message) attrsResp verifResp =
      PResult.rejected message) ∧
    (updateAttributes user attributes config .ok attrsResp verifResp =
      if emailVerificationIsMandatory config then
        loginOrVerifyEmail user config attrsResp verifResp
      else
        PResult.resolved (.updateAttributes attributes)) ∧
    (emailVerificationIsMandatory config = false →
      ∀ (attrsResp2 : AttrsResp) (verifResp2 : VerifCodeResp),
        updateAttributes user attributes config .ok attrsResp2 verifResp2 =
          PResult.resolved (.updateAttributes attributes)) := by
  refine ⟨rfl, rfl, fun h a2 v2 => ?_⟩
  simp [updateAttributes, h]

/-- C8 witness: the theorem applied at a config that disables mandatory
verification: the update resolves the updateAttributes action directly,
with the attribute-fetch response reporting an error that is never
consulted. -/
theorem C8_updateAttributes_branches_witness :
    updateAttributes { Username := "alice", Pool := "pool-id" }
        [("given_name", "A")] (some cfgNoVerif) .ok (.err "unused") .onSuccess =
      PResult.resolved (.updateAttributes [("given_name", "A")]) :=
  (C8_updateAttributes_branches { Username := "alice", Pool := "pool-id" }
    [("given_name", "A")] (some cfgNoVerif) "m" (.err "unused") .onSuccess).2.2
    (by decide) (.err "unused") .onSuccess

end ReactCognito

namespace ReactCognito

/-- Assigning a key that is not present in the object appends the entry. -/
theorem objAssign_of_not_mem (m : AttrMap) (k v : String)
    (h : ∀ p ∈ m, p.1 ≠ k) : objAssign m k v = m ++ [(k, v)] := by
  rw [objAssign, if_neg]
  simp only [List.any_eq_true, beq_iff_eq, not_exists, not_and]
  exact h

/-- Folding the decode step over an encoded map with pairwise-distinct keys,
starting from an accumulator whose keys are disjoint from the map, appends
the map to the accumulator entry by entry. -/
theorem foldl_objAssign_append (m : AttrMap) :
    ∀ acc : AttrMap, (m.map Prod.fst).Nodup →
      (∀ p ∈ acc, ∀ q ∈ m, p.1 ≠ q.1) →
      List.foldl (fun attributes a => objAssign attributes a.Name a.Value)
        acc (mkAttrList m) = acc ++ m := by
  induction m with
  | nil => intro acc _ _; simp [mkAttrList]
  | cons hd tl ih =>
    intro acc hnd hdisj
    have hstep : objAssign acc hd.1 hd.2 = acc ++ [hd] := by
      rw [objAssign_of_not_mem acc hd.1 hd.2
        (fun p hp => hdisj p hp hd (List.mem_cons_self hd tl))]
    rw [List.map_cons, List.nodup_cons] at hnd
    have hndtl : (tl.map Prod.fst).Nodup := hnd.2
    have hhd : ∀ q ∈ tl, hd.1 ≠ q.1 := by
      intro q hq hEq
      exact hnd.1 (List.mem_map.mpr ⟨q, hq, hEq.symm⟩)
    have hdisj2 : ∀ p ∈ acc ++ [hd], ∀ q ∈ tl, p.1 ≠ q.1 := by
      intro p hp q hq
      rcases List.mem_append.mp hp with hpa | hph
      · exact hdisj p hpa q (List.mem_cons_of_mem hd hq)
      · have : p = hd := by simpa using hph
        exact this ▸ hhd q hq
    calc List.foldl (fun attributes a => objAssign attributes a.Name a.Value)
          acc (mkAttrList (hd :: tl))
        = List.foldl (fun attributes a => objAssign attributes a.Name a.Value)
          (objAssign acc hd.1 hd.2) (mkAttrList tl) := by
          simp [mkAttrList]
      _ = (acc ++ [hd]) ++ tl := by rw [hstep]; exact ih (acc ++ [hd]) hndtl hdisj2
      _ = acc ++ (hd :: tl) := by simp

/-- C9: for every attribute map with pairwise-distinct keys, encoding with
mkAttrList and decoding the echoed Name and Value pairs the way
getUserAttributes does reproduces the original map exactly, hence with the
same key set and equal values. -/
theorem C9_codec_roundtrip (m : AttrMap) (h : (m.map Prod.fst).Nodup) :
    decodeAttrList (mkAttrList m) = m := by
  simpa [decodeAttrList] using
    foldl_objAssign_append m [] h (by intro p hp; cases hp)

/-- C9 witness: the round trip evaluated on the concrete two-entry map of
the spec example. -/
theorem C9_codec_roundtrip_witness :
    (([("email", "a@b.com"), ("given_name", "A")] : AttrMap).map Prod.fst).Nodup ∧
    decodeAttrList (mkAttrList [("email", "a@b.com"), ("given_name", "A")]) =
      [("email", "a@b.com"), ("given_name", "A")] :=
  ⟨by decide, C9_codec_roundtrip [("email", "a@b.com"), ("given_name", "A")] (by decide)⟩

end ReactCognito
